import Mathlib

/-!
Verification of the ETF sector-rotation client (`src/sector_rotation.py`)
against its natural-language specification.

The Python program is shallowly embedded: dictionaries become association
lists, JSON primitives become the inductive `Prim`, floating-point prices
become exact rationals, network responses and clock readings become explicit
parameters, and code that can raise becomes `Option`/`Except`-valued.  Each
definition below is translated from the named function of the source file.
-/

namespace SectorRotation

/-- Primitive JSON values, as produced by `response.json()` and as stored in
the Python dictionaries the program builds (`null`, booleans, numbers,
strings).  Floats are modelled as exact rationals. -/
inductive Prim where
  | pnull
  | pbool (b : Bool)
  | pnum (q : ℚ)
  | pstr (s : String)
  deriving Repr, DecidableEq

/-- Python truthiness of a primitive value, as used by
`result.get('connected', False)` in a boolean context: `None` and `False`
are falsy, a number is truthy iff nonzero, a string iff nonempty. -/
def Prim.truthy : Prim → Bool
  | .pnull => false
  | .pbool b => b
  | .pnum q => q != 0
  | .pstr s => s != ""

/-- An OHLC bar: a dictionary of numeric fields (`time`, `open`, `high`,
`low`, `close`, `volume`, ...), possibly missing some of them. -/
abbrev Bar := List (String × ℚ)

/-- The sort key `lambda x: x.get('time', 0)` used by `get_ohlc`. -/
def timeKey (b : Bar) : ℚ := (b.lookup "time").getD 0

/-- Ordering of bars by their `time` field (bars without one count as 0),
the comparison under which `get_ohlc` sorts ascending. -/
def barLE (a b : Bar) : Prop := timeKey a ≤ timeKey b

instance : DecidableRel barLE := fun a b => inferInstanceAs (Decidable (timeKey a ≤ timeKey b))

instance : IsTotal Bar barLE := ⟨fun a b => le_total (timeKey a) (timeKey b)⟩

instance : IsTrans Bar barLE := ⟨fun _ _ _ hab hbc => le_trans hab hbc⟩

/-- The stable ascending sort `sorted(result, key=lambda x: x.get('time', 0))`
of `get_ohlc`.  Python's Timsort is stable; `List.insertionSort` with a `≤`
comparison computes the same stable sort. -/
def sortBars (bs : List Bar) : List Bar := List.insertionSort barLE bs

/-- Python's negative-index slice `l[-count:]` for a natural `count`: the
whole list when `count = 0` (since `l[0:]` is all of `l`), otherwise the last
`count` entries. -/
def pyTail {α : Type} (l : List α) (count : ℕ) : List α :=
  if count = 0 then l else l.drop (l.length - count)

/-- A value found under the `candles` key of an OHLC response object: either
the expected list of bars or some primitive (on which `sorted()` would raise,
caught by `get_ohlc` and turned into `[]`). -/
inductive CandVal where
  | cbars (bars : List Bar)
  | cprim (p : Prim)
  deriving Repr, DecidableEq

/-- The shapes an OHLC gateway response can take: a bare JSON list of bars,
or a JSON object (whose `candles` key, when present, holds a `CandVal`). -/
inductive OhlcResponse where
  | rlist (bars : List Bar)
  | robj (kvs : List (String × CandVal))
  deriving Repr, DecidableEq

/-- Embedding of `MetaSyncAPI.get_ohlc` (src/sector_rotation.py lines
213-269), with the connection outcome and the gateway response passed in
explicitly.  `connectedOk` is `self.connected or self.connect()`.  A bare
list and an object with a `candles` list are sorted ascending by `time` and
cut to the Python slice `[-count:]`; an object whose `candles` value is not
a list makes `sorted()` raise, which the surrounding handler turns into
`[]`; an object without `candles` (with or without a `message` key) and a
failed connection also give `[]`. -/
def get_ohlc (connectedOk : Bool) (resp : OhlcResponse) (count : ℕ) : List Bar :=
  if !connectedOk then []
  else
    match resp with
    | .rlist bars => pyTail (sortBars bars) count
    | .robj kvs =>
      match kvs.lookup "candles" with
      | some (.cbars bars) => pyTail (sortBars bars) count
      | some (.cprim _) => []
      | none => []

/-- A tick record: a dictionary of numeric fields (`bid`, `ask`, `volume`,
...), possibly missing some of them, possibly empty. -/
abbrev Tick := List (String × ℚ)

/-- The per-sector inputs `_load_symbol_info` obtains from the API for one
configured sector: the symbol-info record, the tick record and the list of
daily bars returned by `get_ohlc(symbol, 'D1', 2)`. -/
structure SectorInput where
  sector : String
  symbol : String
  symbolInfo : List (String × Prim)
  tick : Tick
  ohlc : List Bar
  deriving Repr, DecidableEq

/-- One row of the sector DataFrame `_load_symbol_info` builds.  The
`relative_strength` column is absent (`none`) until
`calculate_relative_strength` adds it. -/
structure SectorRow where
  sector : String
  symbol : String
  price : ℚ
  change : ℚ
  volume : ℚ
  timestamp : String
  relative_strength : Option ℚ := none
  deriving Repr, DecidableEq

/-- The access `ohlc_data[0]['close']`: the `close` field of the first bar,
`none` when there is no such bar or the bar has no `close` key (in Python a
KeyError, caught by the per-sector handler). -/
def prevClose (bars : List Bar) : Option ℚ :=
  match bars with
  | [] => none
  | b0 :: _ => b0.lookup "close"

/-- Embedding of one iteration of the per-sector loop of
`SectorRotationStrategy._load_symbol_info` (src/sector_rotation.py lines
382-431).  `none` means the sector is skipped: empty symbol info, a tick
that is empty or lacks `bid` or `ask`, or a first bar without `close` (a
KeyError caught by the `except` of the loop body).  Otherwise the appended
row carries the mid price `(bid + ask) / 2` and the daily change, which is
`((mid - prev_close) / prev_close) * 100` when at least two bars came back
and `prev_close > 0`, else `0`. -/
def processSector (inp : SectorInput) (ts : String) : Option SectorRow :=
  if inp.symbolInfo.isEmpty then none
  else
    match inp.tick.lookup "bid", inp.tick.lookup "ask" with
    | some b, some a =>
      if 2 ≤ inp.ohlc.length then
        match prevClose inp.ohlc with
        | none => none
        | some c =>
          some { sector := inp.sector, symbol := inp.symbol, price := (b + a) / 2,
                 change := if 0 < c then (((b + a) / 2 - c) / c) * 100 else 0,
                 volume := (inp.tick.lookup "volume").getD 0, timestamp := ts }
      else
        some { sector := inp.sector, symbol := inp.symbol, price := (b + a) / 2,
               change := 0,
               volume := (inp.tick.lookup "volume").getD 0, timestamp := ts }
    | _, _ => none

/-- Embedding of `SectorRotationStrategy._load_symbol_info`: the ordered
collection of rows of the sectors that were not skipped. -/
def loadSymbolInfo (inputs : List SectorInput) (ts : String) : List SectorRow :=
  inputs.filterMap (fun inp => processSector inp ts)

/-- A benchmark record: a Python dictionary with primitive values
(`symbol`, `price`, `change`, `timestamp`, ...). -/
abbrev Bench := List (String × Prim)

/-- The benchmark change `benchmark_data.get('change', 0)` as it enters the
subtraction `sector_data['change'] - benchmark_change`: `0` when the key is
absent, the number when present, and a TypeError (raised by the pandas
subtraction) when the key holds a non-numeric value. -/
def benchChange (bd : Bench) : Except String ℚ :=
  match bd.lookup "change" with
  | none => .ok 0
  | some (.pnum q) => .ok q
  | some _ => .error "TypeError: unsupported operand type for -"

/-- Embedding of `SectorRotationStrategy.calculate_relative_strength`
(src/sector_rotation.py lines 612-631): unchanged input when the sector
DataFrame is empty or the benchmark dictionary is falsy, otherwise every row
gains `relative_strength = change - benchmark_change`. -/
def calculate_relative_strength (sectorData : List SectorRow) (benchmarkData : Bench) :
    Except String (List SectorRow) :=
  if sectorData.isEmpty || benchmarkData.isEmpty then .ok sectorData
  else
    match benchChange benchmarkData with
    | .ok bc =>
      .ok (sectorData.map (fun r => { r with relative_strength := some (r.change - bc) }))
    | .error e => .error e

/-- The shapes a connect response can take: a JSON object, or anything else
(on which `result.get` raises AttributeError, caught by the `except` of
`connect`). -/
inductive ConnResp where
  | rdict (kvs : List (String × Prim))
  | rother
  deriving Repr, DecidableEq

/-- The Python comparison `result.get('status') == 'success'`: true exactly
for the string value `success` (a missing key compares `None == 'success'`,
false; any non-string value also compares false). -/
def statusSuccess (v : Option Prim) : Bool :=
  match v with
  | some (.pstr s) => s == "success"
  | _ => false

/-- The success test of `MetaSyncAPI.connect` (src/sector_rotation.py line
197): `result.get('connected', False) and result.get('status') == 'success'`.
A non-object response lands in the exception handler, hence failure. -/
def connectOk : ConnResp → Bool
  | .rdict kvs =>
      ((kvs.lookup "connected").getD (.pbool false)).truthy &&
        statusSuccess (kvs.lookup "status")
  | .rother => false

/-- Embedding of `MetaSyncAPI.connect` (src/sector_rotation.py lines
172-211) as a function of the current connection flag and the gateway
response.  The result triple is (returned value, new connection flag,
whether a network request was made): an already-connected client returns
`true` at once with no request; otherwise the flag and the returned value
are both the outcome of `connectOk`. -/
def connect (connected : Bool) (resp : ConnResp) : Bool × Bool × Bool :=
  if connected then (true, true, false)
  else (connectOk resp, connectOk resp, true)

/-- A keyword-argument value of `_make_request`: either a primitive or a
dictionary of primitives (such as the `json=connection_data` body `connect`
passes). -/
inductive KVal where
  | kprim (p : Prim)
  | kdict (kvs : List (String × Prim))
  deriving Repr, DecidableEq

/-- The `**kwargs` dictionary of a `_make_request` call. -/
abbrev Kwargs := List (String × KVal)

/-- Removal of a key from a Python dictionary, as done by
`kwargs.pop(key, default)`. -/
def removeKey {β : Type} (k : String) (kw : List (String × β)) : List (String × β) :=
  kw.filter (fun p => p.1 != k)

/-- The HTTP method argument of `_make_request`. -/
inductive Method where
  | GET
  | POST
  deriving Repr, DecidableEq

/-- What a POST issued by `_make_request` actually transmits as its JSON
body (src/sector_rotation.py line 135): after the `headers` pop, the value
of the `json` kwarg when one is present, otherwise the remaining kwargs
dictionary itself (`json_data = kwargs.pop('json', kwargs)`). -/
def sentBody (kwargs : Kwargs) : Sum KVal Kwargs :=
  match (removeKey "headers" kwargs).lookup "json" with
  | some v => .inl v
  | none => .inr (removeKey "headers" kwargs)

/-- The kwargs dictionary with which the recursive retry of
`_make_request` is invoked after an HTTP 429 (src/sector_rotation.py line
149).  By then `kwargs.pop('headers', ...)` has run, and for a POST with a
`json` kwarg `kwargs.pop('json', kwargs)` has removed the body as well, so
the retry no longer carries it. -/
def retryKwargs (method : Method) (kwargs : Kwargs) : Kwargs :=
  match method with
  | .GET => removeKey "headers" kwargs
  | .POST =>
    match (removeKey "headers" kwargs).lookup "json" with
    | some _ => removeKey "json" (removeKey "headers" kwargs)
    | none => removeKey "headers" kwargs

/-- The sleep duration of the 429 handler:
`int(response.headers.get('Retry-After', 5))` (src/sector_rotation.py line
145). -/
def retryAfterSeconds (header : Option ℕ) : ℕ := header.getD 5

/-- The dictionary printed in the request trace of `_make_request`
(src/sector_rotation.py line 123): the kwargs left after the `headers` pop,
with the top-level keys `password` and `api_key` filtered out.  Values are
not inspected, so a credential nested inside the value of another key
survives the filter. -/
def logParams (kwargs : Kwargs) : Kwargs :=
  (removeKey "headers" kwargs).filter (fun p => p.1 != "password" && p.1 != "api_key")

/-- Whether a kwarg value contains the string `s`, at the top level or
nested one dictionary deep. -/
def KVal.hasStr (s : String) : KVal → Bool
  | .kprim (.pstr t) => t == s
  | .kprim _ => false
  | .kdict kvs => kvs.any (fun kv => match kv.2 with | .pstr t => t == s | _ => false)

/-- Whether the request trace printed by `_make_request` contains the
string `s` anywhere among its logged parameter values. -/
def logLeaks (s : String) (kwargs : Kwargs) : Bool :=
  (logParams kwargs).any (fun kv => kv.2.hasStr s)

/-- The `connection_data` dictionary `connect` builds
(src/sector_rotation.py lines 180-186), with the login fixed to 123, the
server to "Srv" and the password a parameter. -/
def connectionData (pw : String) : List (String × Prim) :=
  [("login", .pnum 123), ("password", .pstr pw), ("server", .pstr "Srv"),
   ("path", .pstr ""), ("timeout", .pnum 10000)]

/-- The kwargs of the `_make_request` call `connect` issues:
`json=connection_data`. -/
def connectKwargs (pw : String) : Kwargs := [("json", .kdict (connectionData pw))]

/-- The class attributes the `Config` class body assigns
(src/sector_rotation.py lines 15-99).  `HEADERS` is assigned twice and is
one attribute; `RAPIDAPI_HOST` is never assigned. -/
def configAttrs : List String :=
  ["RAPIDAPI_KEY", "MT5_LOGIN", "MT5_PASSWORD", "MT5_SERVER", "API_BASE_URL",
   "HEADERS", "ENDPOINTS", "SECTORS", "BENCHMARK", "TRADING_RULES", "RISK_CONFIG"]

/-- The two bodies defined under the name `get_account_info` in the
`MetaSyncAPI` class: the connect-on-demand instance method of lines 279-285
and the `@staticmethod` of lines 296-312. -/
inductive AcctImpl where
  | connectOnDemand
  | staticRapidHost
  deriving Repr, DecidableEq

/-- The assignments the `MetaSyncAPI` class body makes under the name
`get_account_info`, in textual order: executing a Python class body stores
each `def` into the class dictionary, so a later `def` with the same name
replaces an earlier one. -/
def acctDefs : List (String × AcctImpl) :=
  [("get_account_info", .connectOnDemand), ("get_account_info", .staticRapidHost)]

/-- Attribute lookup on the finished class dictionary: the last assignment
under the name wins. -/
def resolveMethod (n : String) : Option AcctImpl := acctDefs.reverse.lookup n

/-- A plain record response (an `account_info` body). -/
abbrev Record := List (String × Prim)

/-- Embedding of the instance method `get_account_info` of lines 279-285:
short-circuits to the empty record when not connected and the on-demand
`connect` fails, and otherwise returns whatever `_make_request` returned. -/
def instanceGetAccountInfo (connected connectResult : Bool) (net : Record) : Record :=
  if !connected && !connectResult then [] else net

/-- Embedding of the `@staticmethod get_account_info` of lines 296-312.
The body builds `url = f"https://{Config.RAPIDAPI_HOST}/get_account"` before
its `try` block; `Config` has no attribute `RAPIDAPI_HOST` (see
`configAttrs`), so this line raises AttributeError and the handler that
would have returned the empty record never runs.  The network outcome the
unreachable branch would use is passed in as `net`. -/
def staticGetAccountInfo (net : Except String Record) : Except String Record :=
  if configAttrs.contains "RAPIDAPI_HOST" then
    match net with
    | .ok r => .ok r
    | .error _ => .ok []
  else .error "AttributeError: type object Config has no attribute RAPIDAPI_HOST"

/-- The mutable state of `MetaSyncAPI` relevant to rate limiting
(src/sector_rotation.py lines 104-107). -/
structure ApiState where
  last_request_time : ℚ
  min_request_interval : ℚ
  deriving Repr, DecidableEq

/-- The state `MetaSyncAPI.__init__` sets up: `last_request_time = 0`,
`min_request_interval = 1.0`. -/
def initApiState : ApiState :=
  { last_request_time := 0, min_request_interval := 1 }

/-- The sleep performed by `MetaSyncAPI._rate_limit` (src/sector_rotation.py
lines 109-113) when a request begins at time `now`:
`min_request_interval - elapsed` when `elapsed < min_request_interval`,
nothing otherwise. -/
def rateLimitDelay (st : ApiState) (now : ℚ) : ℚ :=
  if now - st.last_request_time < st.min_request_interval then
    st.min_request_interval - (now - st.last_request_time)
  else 0

/-- The observable timing of one `_make_request` call. -/
structure RequestRun where
  delay : ℚ
  finish : ℚ
  state : ApiState
  deriving Repr, DecidableEq

/-- Embedding of the timing behaviour of one `_make_request` call beginning
at time `start` whose HTTP exchange takes `dur`: `_rate_limit` sleeps
`rateLimitDelay`, the response arrives at `start + delay + dur`, and
`self.last_request_time` is assigned that completion time on the success
path only (src/sector_rotation.py line 156) — a call that ends in the
exception handler leaves it unchanged. -/
def makeRequestTimed (st : ApiState) (start dur : ℚ) (ok : Bool) : RequestRun :=
  { delay := rateLimitDelay st start,
    finish := start + rateLimitDelay st start + dur,
    state := { st with
      last_request_time :=
        if ok then start + rateLimitDelay st start + dur else st.last_request_time } }

/-- A single bar with `time` 1 and `close` 2, used to exercise `get_ohlc`
at `count = 0`. -/
def oneBar : Bar := [("time", 1), ("close", 2)]

/-- The spec's OHLC scenario: a bare list of three bars with unsorted
`time` values. -/
def demoBars : List Bar :=
  [[("time", 3), ("close", 30)], [("time", 1), ("close", 10)], [("time", 2), ("close", 20)]]

/-- A sector fetch whose earlier daily bar closed at the (nonsensical but
nonzero) value -1, with tick bid 10 and ask 10.2. -/
def negCloseInput : SectorInput :=
  { sector := "Energy", symbol := "XLE.NYSE",
    symbolInfo := [("name", .pstr "XLE.NYSE")],
    tick := [("bid", 10), ("ask", 51 / 5)],
    ohlc := [[("time", 1), ("close", -1)], [("time", 2), ("close", 5)]] }

/-- The spec's snapshot scenario: tick bid 10 and ask 10.2 (mid 10.1) with
prior close 10. -/
def demoInput : SectorInput :=
  { sector := "Technology", symbol := "USTEC",
    symbolInfo := [("digits", .pnum 2)],
    tick := [("bid", 10), ("ask", 51 / 5)],
    ohlc := [[("time", 1), ("close", 10)], [("time", 2), ("close", 101 / 10)]] }

/-- A sector fetch whose tick record lacks the `ask` field. -/
def badTickInput : SectorInput :=
  { sector := "Utilities", symbol := "XLU.NYSE",
    symbolInfo := [("digits", .pnum 2)],
    tick := [("bid", 10)],
    ohlc := [] }

/-- A snapshot row with a negative daily change. -/
def demoRow : SectorRow :=
  { sector := "Energy", symbol := "XLE.NYSE", price := 10, change := -2,
    volume := 0, timestamp := "t" }

/-- A benchmark record that is nonempty but has no `change` key. -/
def benchNoChange : Bench := [("symbol", .pstr "US500"), ("price", .pnum 5000)]

/-- C1: the claim says an HTTP 429 makes the client reissue the identical
request (same endpoint, method, and parameters).  At the concrete input of
the `connect` call — a POST whose kwargs are `json=connection_data` — the
first transmission carries the connection data as its body, but the kwargs
passed to the recursive retry are empty (the `json` kwarg was popped), so
the retried POST transmits an empty body: the retry is not the identical
request.  This contradicts the code's own comment "Retry the request once
after waiting". -/
theorem retry_drops_post_body :
    sentBody (connectKwargs "pw") = .inl (.kdict (connectionData "pw")) ∧
    retryKwargs .POST (connectKwargs "pw") = [] ∧
    sentBody (retryKwargs .POST (connectKwargs "pw")) = .inr [] ∧
    sentBody (retryKwargs .POST (connectKwargs "pw")) ≠ sentBody (connectKwargs "pw") := by
  refine ⟨rfl, rfl, rfl, ?_⟩
  decide

/-- C7: the claim says the request trace never contains credential values,
including when they travel inside a POST body.  The filter of
`_make_request` only drops the top-level keys `password` and `api_key`; the
`connect` call passes the credentials nested under the `json` kwarg, whose
value survives the filter, so the printed trace contains the password.  (A
password passed at top level would indeed be filtered, second conjunct.) -/
theorem request_trace_leaks_password :
    logLeaks "s3cret" (connectKwargs "s3cret") = true ∧
    logLeaks "s3cret" [("password", .kprim (.pstr "s3cret"))] = false :=
  ⟨rfl, rfl⟩

/-- C8: the claim describes the connect-on-demand `get_account_info` of
lines 279-285, but the class body later rebinds the same name to the
`@staticmethod` of lines 296-312, so attribute lookup resolves every call to
the latter; and that body raises AttributeError on the nonexistent
`Config.RAPIDAPI_HOST` before its `try` block, whatever the network would
have answered — it neither connects on demand nor returns a record. -/
theorem get_account_info_shadowed_and_raises :
    resolveMethod "get_account_info" = some .staticRapidHost ∧
    staticGetAccountInfo (.ok [("balance", .pnum 1000)]) =
      .error "AttributeError: type object Config has no attribute RAPIDAPI_HOST" :=
  ⟨rfl, rfl⟩

/-- C9: the claim says that for every two consecutive requests begun less
than the minimum interval apart, the second is blocked for at least
`min_request_interval - elapsed` and the last-request timestamp is then
recorded.  Concretely: from the initial state, a request begun at time 10
that fails leaves `last_request_time` at 0 (nothing is recorded), and the
next request begun at 10.5 — only 0.5 < 1.0 after the previous one — is not
blocked at all (delay 0), strictly less than the 0.5 the claim requires. -/
theorem rate_limit_unrecorded_after_failure :
    (makeRequestTimed initApiState 10 (1 / 5) false).state.last_request_time = 0 ∧
    (makeRequestTimed (makeRequestTimed initApiState 10 (1 / 5) false).state
        (21 / 2) (1 / 10) true).delay = 0 ∧
    (0 : ℚ) < initApiState.min_request_interval - (21 / 2 - 10) := by
  refine ⟨rfl, ?_, by norm_num [initApiState]⟩
  norm_num [makeRequestTimed, rateLimitDelay, initApiState]

/-- C2: the claim says `get_ohlc` returns only the last `count` entries of
the sorted bars.  At `count = 0` the Python slice `result[-0:]` is the whole
list, so a one-bar response comes back whole instead of as the empty
sequence of zero entries. -/
theorem ohlc_count_zero_returns_all :
    get_ohlc true (.rlist [oneBar]) 0 = [oneBar] ∧
    get_ohlc true (.rlist [oneBar]) 0 ≠ ([] : List Bar) := by
  refine ⟨rfl, ?_⟩
  decide

/-- C3: the claim says the percent-change formula applies whenever the
earlier close is nonzero.  With earlier close -1 (nonzero) and mid price
10.1 the code records a change of 0, while the claimed formula gives
-1110 ≠ 0. -/
theorem daily_change_zero_at_negative_close :
    (processSector negCloseInput "t").map SectorRow.change = some 0 ∧
    (((10 + 51 / 5) / 2 - (-1 : ℚ)) / (-1)) * 100 ≠ 0 := by
  refine ⟨rfl, by norm_num⟩

/-- A helper for the status comparison: `statusSuccess v` holds exactly when
`v` is the string value `success`. -/
theorem statusSuccess_iff (v : Option Prim) :
    statusSuccess v = true ↔ v = some (.pstr "success") := by
  rcases v with _ | p
  · simp [statusSuccess]
  · cases p <;> simp [statusSuccess]

/-- C5: `connect` on an already-connected client returns true with no
network call; on a fresh client it always makes the one network call, and it
returns true — simultaneously setting the connection flag, which always
equals the returned value, so every failure leaves the flag false — exactly
when the response is an object carrying a truthy `connected` value and a
`status` equal to the string `success`. -/
theorem connect_success_iff (resp : ConnResp) :
    connect true resp = (true, true, false) ∧
    (connect false resp).2.2 = true ∧
    (connect false resp).2.1 = (connect false resp).1 ∧
    ((connect false resp).1 = true ↔
      ∃ kvs, resp = .rdict kvs ∧
        ((kvs.lookup "connected").getD (.pbool false)).truthy = true ∧
        kvs.lookup "status" = some (.pstr "success")) := by
  refine ⟨rfl, rfl, rfl, ?_⟩
  show connectOk resp = true ↔ _
  cases resp with
  | rother => simp [connectOk]
  | rdict kvs => simp [connectOk, Bool.and_eq_true, statusSuccess_iff]

/-- C4: `calculate_relative_strength` returns the input unchanged when the
snapshot collection or the benchmark record is empty; otherwise, whenever
the benchmark carries a numeric `change` value, it returns the rows with a
`relative_strength` field equal to each row's `change` minus the benchmark
change, for every input including negative changes. -/
theorem calculate_relative_strength_spec (sd : List SectorRow) (bd : Bench) :
    ((sd = [] ∨ bd = []) → calculate_relative_strength sd bd = .ok sd) ∧
    (∀ bc : ℚ, bd.lookup "change" = some (.pnum bc) →
      calculate_relative_strength sd bd =
        .ok (sd.map (fun r => { r with relative_strength := some (r.change - bc) }))) := by
  constructor
  · rintro (rfl | rfl) <;> simp [calculate_relative_strength]
  · intro bc hbc
    have hbd : bd ≠ [] := by rintro rfl; simp at hbc
    rcases eq_or_ne sd [] with rfl | hsd
    · simp [calculate_relative_strength]
    · simp [calculate_relative_strength, benchChange, hbc, hsd, hbd, List.isEmpty_iff]

/-- C10: when the snapshot collection and the benchmark record are both
nonempty but the benchmark has no `change` key, `get('change', 0)` yields 0
and every row's `relative_strength` equals its own `change`. -/
theorem missing_benchmark_change_defaults_zero (sd : List SectorRow) (bd : Bench)
    (hsd : sd ≠ []) (hbd : bd ≠ []) (hchange : bd.lookup "change" = none) :
    calculate_relative_strength sd bd =
      .ok (sd.map (fun r => { r with relative_strength := some r.change })) := by
  simp [calculate_relative_strength, benchChange, hchange, hsd, hbd, List.isEmpty_iff]

/-- Witness for C10 at a concrete input: a one-row snapshot with change -2
and a nonempty benchmark without a `change` key. -/
theorem missing_benchmark_change_witness :
    calculate_relative_strength [demoRow] benchNoChange =
      .ok ([demoRow].map (fun r => { r with relative_strength := some r.change })) :=
  missing_benchmark_change_defaults_zero [demoRow] benchNoChange
    (by simp) (by simp [benchNoChange]) rfl

/-- C3 (amended): for a sector that passes the symbol-info and tick checks,
the recorded daily change is `((mid - prev_close) / prev_close) * 100` when
at least two bars are returned and the earlier close is positive, and
exactly 0 when fewer than two bars are returned or the earlier close is not
positive (the code guards `prev_close > 0`, not merely nonzero). -/
theorem daily_change_spec (inp : SectorInput) (ts : String) (b a c : ℚ)
    (hinfo : inp.symbolInfo.isEmpty = false)
    (hb : inp.tick.lookup "bid" = some b)
    (ha : inp.tick.lookup "ask" = some a) :
    (2 ≤ inp.ohlc.length → prevClose inp.ohlc = some c → 0 < c →
      (processSector inp ts).map SectorRow.change =
        some ((((b + a) / 2 - c) / c) * 100)) ∧
    (inp.ohlc.length < 2 →
      (processSector inp ts).map SectorRow.change = some 0) ∧
    (2 ≤ inp.ohlc.length → prevClose inp.ohlc = some c → c ≤ 0 →
      (processSector inp ts).map SectorRow.change = some 0) := by
  refine ⟨?_, ?_, ?_⟩
  · intro hlen hc hpos
    simp [processSector, hinfo, hb, ha, hlen, hc, hpos]
  · intro hlen
    have hlen2 : ¬ 2 ≤ inp.ohlc.length := by omega
    simp [processSector, hinfo, hb, ha, hlen2]
  · intro hlen hc hnonpos
    have hpos : ¬ 0 < c := not_lt.mpr hnonpos
    simp [processSector, hinfo, hb, ha, hlen, hc, hpos]

/-- Witness for C3 at the spec's concrete scenario: tick bid 10 and ask
10.2 give mid 10.1, prior close 10 gives a recorded daily change of 1. -/
theorem daily_change_spec_witness :
    (processSector demoInput "t").map SectorRow.change = some 1 := by
  have h := (daily_change_spec demoInput "t" 10 (51 / 5) 10 rfl rfl rfl).1
      (by decide) rfl (by norm_num)
  have h2 : ((((10 : ℚ) + 51 / 5) / 2 - 10) / 10) * 100 = 1 := by norm_num
  rw [h2] at h
  exact h

/-- C6: a sector whose tick record is empty or lacks `bid` or lacks `ask`
contributes no row to the snapshot (the loop body hits `continue`), and the
snapshot equals the one built from the remaining sectors alone — other
sectors are unaffected, and nothing is raised (the embedding is total). -/
theorem missing_bid_ask_skips_sector (pre post : List SectorInput) (bad : SectorInput)
    (ts : String)
    (hbad : bad.tick = [] ∨ bad.tick.lookup "bid" = none ∨ bad.tick.lookup "ask" = none) :
    processSector bad ts = none ∧
    loadSymbolInfo (pre ++ bad :: post) ts = loadSymbolInfo (pre ++ post) ts := by
  have hnone : processSector bad ts = none := by
    rcases hbad with h | h | h
    · rcases hask : bad.tick.lookup "ask" with _ | av <;>
        simp [processSector, h, List.lookup] at hask ⊢
    · rcases hask : bad.tick.lookup "ask" with _ | av <;>
        simp [processSector, h, hask]
    · rcases hbid : bad.tick.lookup "bid" with _ | bv <;>
        simp [processSector, h, hbid]
  refine ⟨hnone, ?_⟩
  simp [loadSymbolInfo, List.filterMap_append, List.filterMap_cons, hnone]

/-- Witness for C6 at a concrete input: a tick lacking `ask` is skipped and
leaves the other sector's row untouched. -/
theorem missing_bid_ask_skips_sector_witness :
    processSector badTickInput "t" = none ∧
    loadSymbolInfo [demoInput, badTickInput] "t" = loadSymbolInfo [demoInput] "t" :=
  missing_bid_ask_skips_sector [demoInput] [] badTickInput "t" (Or.inr (Or.inr rfl))

/-- The sleep of `_rate_limit` is never negative. -/
theorem rateLimitDelay_nonneg (st : ApiState) (now : ℚ) : 0 ≤ rateLimitDelay st now := by
  unfold rateLimitDelay
  split <;> linarith

/-- The sleep of `_rate_limit` is at least the spacing still owed relative
to any time `s` at or before the recorded last-request time. -/
theorem rateLimitDelay_ge (st : ApiState) (now s : ℚ) (h : s ≤ st.last_request_time) :
    st.min_request_interval - (now - s) ≤ rateLimitDelay st now := by
  unfold rateLimitDelay
  split <;> linarith

/-- C9 (amended): when the previous request completed successfully — so its
completion time was recorded — a second request begun less than the minimum
interval after the start of the previous one is blocked for at least
`min_request_interval - elapsed`, and the last-request timestamp is then
recorded at the new request's successful completion.  (After a failed
request nothing was recorded, and the bound can be violated: see the
counterexample.) -/
theorem rate_limiter_blocks_after_success (st : ApiState) (s1 dur1 s2 dur2 : ℚ)
    (hdur : 0 ≤ dur1) (hgap : s2 - s1 < st.min_request_interval) :
    st.min_request_interval - (s2 - s1) ≤
      (makeRequestTimed (makeRequestTimed st s1 dur1 true).state s2 dur2 true).delay ∧
    (makeRequestTimed (makeRequestTimed st s1 dur1 true).state
        s2 dur2 true).state.last_request_time =
      s2 + (makeRequestTimed (makeRequestTimed st s1 dur1 true).state s2 dur2 true).delay
        + dur2 := by
  constructor
  · have hlast : s1 ≤ (makeRequestTimed st s1 dur1 true).state.last_request_time := by
      show s1 ≤ s1 + rateLimitDelay st s1 + dur1
      have := rateLimitDelay_nonneg st s1
      linarith
    have hmin : (makeRequestTimed st s1 dur1 true).state.min_request_interval =
        st.min_request_interval := rfl
    have h := rateLimitDelay_ge (makeRequestTimed st s1 dur1 true).state s2 s1 hlast
    rw [hmin] at h
    exact h
  · rfl

/-- Witness for C9 (amended) at concrete times: last request recorded at 5,
minimum interval 1; a first request at time 6 (no wait, response in 0.2,
recorded at 6.2) followed by one at 6.5, only 0.5 after the previous start,
which is delayed at least 0.5 and records its own completion. -/
theorem rate_limiter_blocks_after_success_witness :
    (1 : ℚ) - (13 / 2 - 6) ≤
      (makeRequestTimed (makeRequestTimed ⟨5, 1⟩ 6 (1 / 5) true).state
        (13 / 2) (1 / 10) true).delay ∧
    (makeRequestTimed (makeRequestTimed ⟨5, 1⟩ 6 (1 / 5) true).state
        (13 / 2) (1 / 10) true).state.last_request_time =
      13 / 2 + (makeRequestTimed (makeRequestTimed ⟨5, 1⟩ 6 (1 / 5) true).state
        (13 / 2) (1 / 10) true).delay + 1 / 10 :=
  rate_limiter_blocks_after_success ⟨5, 1⟩ 6 (1 / 5) (13 / 2) (1 / 10)
    (by norm_num) (by show (13 : ℚ) / 2 - 6 < 1; norm_num)

/-- The ascending-by-time sort of `get_ohlc` is sorted. -/
theorem sortBars_sorted (bs : List Bar) : List.Sorted barLE (sortBars bs) :=
  List.sorted_insertionSort barLE bs

/-- Sorting the bars keeps their number. -/
theorem sortBars_length (bs : List Bar) : (sortBars bs).length = bs.length :=
  List.length_insertionSort barLE bs

/-- The Python slice `l[-count:]` is a suffix of `l`. -/
theorem pyTail_suffix {α : Type} (l : List α) (count : ℕ) :
    List.IsSuffix (pyTail l count) l := by
  unfold pyTail
  split
  · exact List.suffix_refl l
  · exact List.drop_suffix _ l

/-- The Python slice `l[-count:]` keeps order: a slice of a sorted list is
sorted. -/
theorem pyTail_sorted (l : List Bar) (count : ℕ) (h : List.Sorted barLE l) :
    List.Sorted barLE (pyTail l count) :=
  h.sublist (pyTail_suffix l count).sublist

/-- For a positive `count`, the Python slice `l[-count:]` has `min count
l.length` elements: all of `l` when `count` exceeds the length, else exactly
`count`. -/
theorem pyTail_length {α : Type} (l : List α) (count : ℕ) (h : count ≠ 0) :
    (pyTail l count).length = min count l.length := by
  unfold pyTail
  rw [if_neg h, List.length_drop]
  omega

/-- C2 (amended): for every positive `count`, `get_ohlc` maps a bare list of
bars, or an object with a `candles` list, to the last `count` entries of the
bars sorted ascending by `time` — a sorted suffix of the sorted bars with
`min count n` entries — and maps every other outcome (a `candles` value that
is not a list, an object without `candles`, a failed connection) to the
empty list, never an error.  (At `count = 0` the slice `[-0:]` returns all
bars: see the counterexample.) -/
theorem get_ohlc_spec (count : ℕ) (hcount : 1 ≤ count) :
    (∀ bars, get_ohlc true (.rlist bars) count =
        (sortBars bars).drop ((sortBars bars).length - count) ∧
      List.Sorted barLE (get_ohlc true (.rlist bars) count) ∧
      (get_ohlc true (.rlist bars) count).length = min count bars.length ∧
      List.IsSuffix (get_ohlc true (.rlist bars) count) (sortBars bars)) ∧
    (∀ kvs bars, kvs.lookup "candles" = some (.cbars bars) →
      get_ohlc true (.robj kvs) count = get_ohlc true (.rlist bars) count) ∧
    (∀ kvs p, kvs.lookup "candles" = some (.cprim p) →
      get_ohlc true (.robj kvs) count = []) ∧
    (∀ kvs, kvs.lookup "candles" = none → get_ohlc true (.robj kvs) count = []) ∧
    (∀ resp, get_ohlc false resp count = []) := by
  have hc0 : count ≠ 0 := by omega
  refine ⟨?_, ?_, ?_, ?_, ?_⟩
  · intro bars
    have he : get_ohlc true (.rlist bars) count = pyTail (sortBars bars) count := rfl
    refine ⟨?_, ?_, ?_, ?_⟩
    · rw [he]
      unfold pyTail
      rw [if_neg hc0]
    · rw [he]
      exact pyTail_sorted _ _ (sortBars_sorted bars)
    · rw [he, pyTail_length _ _ hc0, sortBars_length]
    · rw [he]
      exact pyTail_suffix _ _
  · intro kvs bars h
    simp [get_ohlc, h]
  · intro kvs p h
    simp [get_ohlc, h]
  · intro kvs h
    simp [get_ohlc, h]
  · intro resp
    rfl

/-- Witness for C2 at the spec's scenario: a bare list of three bars with
unsorted times and `count = 2` yields the two bars with the largest times,
in ascending order. -/
theorem get_ohlc_spec_witness :
    get_ohlc true (.rlist demoBars) 2 =
      [[("time", 2), ("close", 20)], [("time", 3), ("close", 30)]] ∧
    List.Sorted barLE (get_ohlc true (.rlist demoBars) 2) ∧
    (get_ohlc true (.rlist demoBars) 2).length = min 2 demoBars.length := by
  have h := get_ohlc_spec 2 (by norm_num)
  exact ⟨by decide, (h.1 demoBars).2.1, (h.1 demoBars).2.2.1⟩

end SectorRotation
